import Mathlib

/-!
Shallow embedding of the savings-account-vault interest-payment client
(`src/main.rs`) and proofs about it: the top-up-interest instruction
builder, the vault-account decode step, the network-URL alias resolver,
the send policy, the sleep arithmetic, and the behaviour of one iteration
of the main loop.
-/

/-- Chain addresses are carried in base58 text form, as the program's
constants are written in the source. -/
abbrev Pubkey := String

/-- The vaults program id from `main.rs` line 39. -/
def VAULTS_PROGRAM_ID : Pubkey := "5j3KuMK2u7KFtoEwiLTexUeooHq5NPQX96rYp5dhuze9"

/-- The SPL token program id (`anchor_spl::token::ID`). -/
def SPL_TOKEN_PROGRAM_ID : Pubkey := "TokenkegQfeZyiNwAJbNbGKPFXCWuBvf9Ss623VQ5DA"

/-- The system program id (`anchor_lang::system_program::ID`). -/
def SYSTEM_PROGRAM_ID : Pubkey := "11111111111111111111111111111111"

/-- Mirror of `solana_program::instruction::AccountMeta`. -/
structure AccountMeta where
  pubkey : Pubkey
  is_signer : Bool
  is_writable : Bool
deriving DecidableEq

/-- `AccountMeta::new` marks the account writable. -/
def AccountMeta.new (pubkey : Pubkey) (is_signer : Bool) : AccountMeta :=
  ⟨pubkey, is_signer, true⟩

/-- `AccountMeta::new_readonly` marks the account non-writable. -/
def AccountMeta.new_readonly (pubkey : Pubkey) (is_signer : Bool) : AccountMeta :=
  ⟨pubkey, is_signer, false⟩

/-- Mirror of `solana_program::instruction::Instruction` as produced by
`Instruction::new_with_bytes`: program id, raw data bytes, account list. -/
structure Instruction where
  program_id : Pubkey
  data : List Nat
  accounts : List AccountMeta
deriving DecidableEq

/-- The 8-byte discriminator for the `TopupInterest` instruction
(`main.rs` line 89). -/
def instruction_discriminator : List Nat := [196, 215, 224, 233, 237, 212, 2, 56]

/-- The instruction built each tick (`main.rs` lines 91-104): program id
`VAULTS_PROGRAM_ID`, data equal to the discriminator bytes, and the
8-entry account list in source order. -/
def build_pay_interest_ix (payer_pubkey vault token token_vault_ac token_payer_ac : Pubkey) :
    Instruction :=
  ⟨VAULTS_PROGRAM_ID,
   instruction_discriminator,
   [AccountMeta.new VAULTS_PROGRAM_ID false,
    AccountMeta.new payer_pubkey true,
    AccountMeta.new_readonly token false,
    AccountMeta.new vault false,
    AccountMeta.new token_payer_ac false,
    AccountMeta.new token_vault_ac false,
    AccountMeta.new_readonly SPL_TOKEN_PROGRAM_ID false,
    AccountMeta.new_readonly SYSTEM_PROGRAM_ID false]⟩

/-- Mirror of `get_network` (`main.rs` lines 45-52): resolve recognized
aliases to fixed public URLs, pass anything else through unchanged. -/
def get_network (network_str : String) : String :=
  if network_str = "devnet" ∨ network_str = "dev" ∨ network_str = "d" then
    "https://api.devnet.solana.com"
  else if network_str = "mainnet" ∨ network_str = "main" ∨ network_str = "m" ∨
      network_str = "mainnet-beta" then
    "https://api.mainnet-beta.solana.com"
  else if network_str = "localnet" ∨ network_str = "localhost" ∨ network_str = "l" then
    "http://localhost:8899"
  else network_str

/-- The sleep interval computed at `main.rs` lines 138-141:
`duration as u64 * 86400_u64 * 1_000`, u64 arithmetic (wrapping at 2^64). -/
def sleep_millis (duration_days : Nat) : Nat :=
  duration_days * 86400 % 2 ^ 64 * 1000 % 2 ^ 64

/-- The recoverable decode failure of the vault deserializer. -/
inductive DecodeError where
  | shortPayload
deriving DecidableEq

/-- The two vault fields the client consumes, each a 32-byte address
(raw bytes here, since they come off the wire). -/
structure VaultRec where
  token : List Nat
  token_vault_ac : List Nat
deriving DecidableEq

/-- Modelled from the spec: `Vault::deserialize` of the external `vaults`
crate, whose source is not in this repository. Per the spec (§3, §4.2 and
scenario S1), the payload after the 8-byte tag carries `token` in its
first 32 bytes and `token_vault_ac` in the next 32, and deserialization
fails with `DecodeError` if the payload is shorter than required
(64 bytes for the two fields). -/
def Vault.deserialize (bytes : List Nat) : Except DecodeError VaultRec :=
  if 64 ≤ bytes.length then
    Except.ok ⟨bytes.take 32, (bytes.drop 32).take 32⟩
  else
    Except.error DecodeError.shortPayload

/-- Outcome of the decode step at `main.rs` line 80: either the Rust code
aborts (an out-of-bounds `split_at`), or `deserialize` returns a
recoverable error value, or decoding succeeds. -/
inductive DecodeOutcome where
  | aborts
  | err (e : DecodeError)
  | ok (v : VaultRec)
deriving DecidableEq

/-- The decode step at `main.rs` line 80:
`Vault::deserialize(vault_account.data.split_at(ANCHOR_DISCRIMINATOR_SIZE).1)`.
`split_at(8)` panics when the data is shorter than 8 bytes; otherwise the
8-byte tag is stripped and the remainder deserialized. -/
def decode_vault_account (data : List Nat) : DecodeOutcome :=
  if 8 ≤ data.length then
    match Vault.deserialize (data.drop 8) with
    | Except.ok v => DecodeOutcome.ok v
    | Except.error e => DecodeOutcome.err e
  else
    DecodeOutcome.aborts

/-- Mirror of `solana_sdk::commitment_config::CommitmentLevel` (the
levels relevant here). -/
inductive CommitmentLevel where
  | processed
  | confirmed
  | finalized
deriving DecidableEq

/-- Mirror of `CommitmentConfig`. -/
structure CommitmentConfig where
  commitment : CommitmentLevel
deriving DecidableEq

/-- `CommitmentConfig::processed()`. -/
def CommitmentConfig.processed : CommitmentConfig := ⟨CommitmentLevel.processed⟩

/-- Mirror of `solana_transaction_status::UiTransactionEncoding` (the
encoding choices a send config may name). -/
inductive UiTransactionEncoding where
  | binary
  | base64
  | base58
  | json
  | jsonParsed
deriving DecidableEq

/-- Mirror of `solana_client::rpc_config::RpcSendTransactionConfig`. -/
structure RpcSendTransactionConfig where
  skip_preflight : Bool
  preflight_commitment : Option CommitmentLevel
  max_retries : Option Nat
  encoding : Option UiTransactionEncoding
  min_context_slot : Option Nat
deriving DecidableEq

/-- The send config passed to the submit call at `main.rs` lines 120-126. -/
def send_transaction_config : RpcSendTransactionConfig :=
  ⟨true, none, none, none, none⟩

/-- The commitment passed to the submit call at `main.rs` line 119. -/
def send_commitment_config : CommitmentConfig := CommitmentConfig.processed

/-- The results the outside world hands one loop iteration: the
`get_account` reply, the `get_latest_blockhash` reply, and the reply of
the submit call (a signature or a submission error), each fallible with a
transport-level error string. -/
structure TickEnv where
  account_result : Except String (List Nat)
  blockhash_result : Except String String
  send_result : Except String String

/-- How one iteration of the `loop` in `main` ends: `exitErr` when a `?`
propagates the error out of `main` (process exit), `aborts` when the code
panics (slice out of bounds, `unwrap` on `Err`), or `next` when control
reaches the tail of the body — printing one outcome line and sleeping
`sleep_ms` before the next iteration. -/
inductive TickOutcome where
  | exitErr (msg : String)
  | aborts
  | next (line : String) (sleep_ms : Nat)
deriving DecidableEq

/-- Whether the iteration reached the sleep and hence the next tick. -/
def TickOutcome.continues : TickOutcome → Bool
  | TickOutcome.next _ _ => true
  | _ => false

/-- One iteration of the `loop` in `main` (`main.rs` lines 76-142):
`get_account` with `?` (line 78), the decode step with `?` (line 80), the
instruction build (pure, lines 91-104), `get_latest_blockhash` with
`.unwrap()` (line 106), signing (pure), the submit call, the `match` on
its result printing one line either way (lines 129-136), and the sleep
(lines 138-141). -/
def tick (duration_days : Nat) (env : TickEnv) : TickOutcome :=
  match env.account_result with
  | Except.error e => TickOutcome.exitErr e
  | Except.ok data =>
    match decode_vault_account data with
    | DecodeOutcome.aborts => TickOutcome.aborts
    | DecodeOutcome.err _ => TickOutcome.exitErr "DecodeError"
    | DecodeOutcome.ok _ =>
      match env.blockhash_result with
      | Except.error _ => TickOutcome.aborts
      | Except.ok _ =>
        match env.send_result with
        | Except.ok sig =>
            TickOutcome.next ("Transaction sig: " ++ sig) (sleep_millis duration_days)
        | Except.error err =>
            TickOutcome.next ("Transaction failed. Error: " ++ err) (sleep_millis duration_days)

/-- C1: for every input tuple (payer, vault, token mint, vault token
account, derived payer token account), the built top-up-interest
instruction has exactly 8 account entries in the order program address,
payer, token mint, vault, payer token account, vault token account,
SPL token program, system program; exactly the entry at index 1 (the
payer) carries the signer flag; and the writable flags are set at
indices 0, 1, 3, 4, 5 and cleared at indices 2, 6, 7. -/
theorem topup_instruction_account_list
    (payer vault token token_vault_ac token_payer_ac : Pubkey) :
    (build_pay_interest_ix payer vault token token_vault_ac token_payer_ac).accounts.length
        = 8 ∧
    (build_pay_interest_ix payer vault token token_vault_ac token_payer_ac).accounts.map
        AccountMeta.pubkey =
      [VAULTS_PROGRAM_ID, payer, token, vault, token_payer_ac, token_vault_ac,
       SPL_TOKEN_PROGRAM_ID, SYSTEM_PROGRAM_ID] ∧
    (build_pay_interest_ix payer vault token token_vault_ac token_payer_ac).accounts.map
        AccountMeta.is_signer =
      [false, true, false, false, false, false, false, false] ∧
    (build_pay_interest_ix payer vault token token_vault_ac token_payer_ac).accounts.map
        AccountMeta.is_writable =
      [true, true, false, true, true, true, false, false] :=
  ⟨rfl, rfl, rfl, rfl⟩

/-- C3: for every input tuple, the data of the built instruction is
exactly the 8 selector bytes C4 D7 E0 E9 ED D4 02 38, with no payload
beyond them. -/
theorem topup_instruction_data_selector
    (payer vault token token_vault_ac token_payer_ac : Pubkey) :
    (build_pay_interest_ix payer vault token token_vault_ac token_payer_ac).data =
      [196, 215, 224, 233, 237, 212, 2, 56] :=
  rfl

/-- C6: for every u16 duration value d, the sleep interval handed to the
timer is exactly d * 86400000 milliseconds; the u64 arithmetic never
wraps. -/
theorem sleep_millis_exact (d : Nat) (h : d < 2 ^ 16) :
    sleep_millis d = d * 86400000 := by
  unfold sleep_millis
  have h1 : d * 86400 < 2 ^ 64 := by
    calc d * 86400 ≤ 65535 * 86400 := Nat.mul_le_mul_right _ (by omega)
    _ < 2 ^ 64 := by norm_num
  have h2 : d * 86400 * 1000 < 2 ^ 64 := by
    calc d * 86400 * 1000 ≤ 65535 * 86400 * 1000 :=
      Nat.mul_le_mul_right _ (Nat.mul_le_mul_right _ (by omega))
    _ < 2 ^ 64 := by norm_num
  rw [Nat.mod_eq_of_lt h1, Nat.mod_eq_of_lt h2, Nat.mul_assoc]

/-- Witness for C6: at the default duration of 30 days the sleep is
exactly 2592000000 milliseconds. -/
theorem sleep_millis_exact_witness :
    (30 : Nat) < 2 ^ 16 ∧ sleep_millis 30 = 30 * 86400000 :=
  ⟨by norm_num, sleep_millis_exact 30 (by norm_num)⟩

/-- C7: the submit call uses commitment level processed, skips preflight,
and leaves the retry override, the encoding and the minimum context slot
unset. -/
theorem send_policy_fixed :
    send_commitment_config.commitment = CommitmentLevel.processed ∧
    send_transaction_config.skip_preflight = true ∧
    send_transaction_config.preflight_commitment = none ∧
    send_transaction_config.max_retries = none ∧
    send_transaction_config.encoding = none ∧
    send_transaction_config.min_context_slot = none :=
  ⟨rfl, rfl, rfl, rfl, rfl, rfl⟩

/-- C10: account data shorter than 8 bytes makes the decode step abort
(the out-of-bounds split) instead of returning a recoverable error. -/
theorem short_account_data_aborts (data : List Nat) (h : data.length < 8) :
    decode_vault_account data = DecodeOutcome.aborts := by
  unfold decode_vault_account
  rw [if_neg (by omega)]

/-- Witness for C10: empty account data aborts the decode step. -/
theorem short_account_data_aborts_witness :
    ([] : List Nat).length < 8 ∧ decode_vault_account [] = DecodeOutcome.aborts :=
  ⟨by decide, short_account_data_aborts [] (by decide)⟩

/-- Resolution of a string that is none of the recognized aliases passes
it through unchanged. -/
theorem get_network_passthrough_aux (s : String)
    (h1 : ¬(s = "devnet" ∨ s = "dev" ∨ s = "d"))
    (h2 : ¬(s = "mainnet" ∨ s = "main" ∨ s = "m" ∨ s = "mainnet-beta"))
    (h3 : ¬(s = "localnet" ∨ s = "localhost" ∨ s = "l")) :
    get_network s = s := by
  unfold get_network
  rw [if_neg h1, if_neg h2, if_neg h3]

/-- C8: alias resolution is idempotent on every input string. -/
theorem get_network_idempotent (s : String) :
    get_network (get_network s) = get_network s := by
  by_cases h1 : s = "devnet" ∨ s = "dev" ∨ s = "d"
  · have hs : get_network s = "https://api.devnet.solana.com" := by
      unfold get_network
      rw [if_pos h1]
    rw [hs]
    exact get_network_passthrough_aux _ (by decide) (by decide) (by decide)
  · by_cases h2 : s = "mainnet" ∨ s = "main" ∨ s = "m" ∨ s = "mainnet-beta"
    · have hs : get_network s = "https://api.mainnet-beta.solana.com" := by
        unfold get_network
        rw [if_neg h1, if_pos h2]
      rw [hs]
      exact get_network_passthrough_aux _ (by decide) (by decide) (by decide)
    · by_cases h3 : s = "localnet" ∨ s = "localhost" ∨ s = "l"
      · have hs : get_network s = "http://localhost:8899" := by
          unfold get_network
          rw [if_neg h1, if_neg h2, if_pos h3]
        rw [hs]
        exact get_network_passthrough_aux _ (by decide) (by decide) (by decide)
      · rw [get_network_passthrough_aux s h1 h2 h3,
            get_network_passthrough_aux s h1 h2 h3]

/-- C9: every string outside the ten recognized aliases resolves to
itself, and each recognized alias resolves to its fixed public URL. -/
theorem get_network_resolution (s : String)
    (h : ¬(s = "devnet" ∨ s = "dev" ∨ s = "d" ∨ s = "mainnet" ∨ s = "main" ∨
        s = "m" ∨ s = "mainnet-beta" ∨ s = "localnet" ∨ s = "localhost" ∨ s = "l")) :
    get_network s = s ∧
    get_network "devnet" = "https://api.devnet.solana.com" ∧
    get_network "dev" = "https://api.devnet.solana.com" ∧
    get_network "d" = "https://api.devnet.solana.com" ∧
    get_network "mainnet" = "https://api.mainnet-beta.solana.com" ∧
    get_network "main" = "https://api.mainnet-beta.solana.com" ∧
    get_network "m" = "https://api.mainnet-beta.solana.com" ∧
    get_network "mainnet-beta" = "https://api.mainnet-beta.solana.com" ∧
    get_network "localnet" = "http://localhost:8899" ∧
    get_network "localhost" = "http://localhost:8899" ∧
    get_network "l" = "http://localhost:8899" := by
  refine ⟨get_network_passthrough_aux s (by tauto) (by tauto) (by tauto),
    ?_, ?_, ?_, ?_, ?_, ?_, ?_, ?_, ?_, ?_⟩ <;> decide

/-- Witness for C9: a literal URL passes through verbatim while the alias
m resolves to the public mainnet URL. -/
theorem get_network_resolution_witness :
    get_network "http://my.node:8899" = "http://my.node:8899" ∧
    get_network "devnet" = "https://api.devnet.solana.com" ∧
    get_network "dev" = "https://api.devnet.solana.com" ∧
    get_network "d" = "https://api.devnet.solana.com" ∧
    get_network "mainnet" = "https://api.mainnet-beta.solana.com" ∧
    get_network "main" = "https://api.mainnet-beta.solana.com" ∧
    get_network "m" = "https://api.mainnet-beta.solana.com" ∧
    get_network "mainnet-beta" = "https://api.mainnet-beta.solana.com" ∧
    get_network "localnet" = "http://localhost:8899" ∧
    get_network "localhost" = "http://localhost:8899" ∧
    get_network "l" = "http://localhost:8899" :=
  get_network_resolution "http://my.node:8899" (by decide)

/-- Counterexample to C4 as stated: empty account data is shorter than
8 + 64 bytes, yet the decode step aborts (out-of-bounds split) instead of
producing the recoverable DecodeError value. -/
theorem decode_short_claim_cex :
    ([] : List Nat).length < 8 + 64 ∧
    decode_vault_account [] = DecodeOutcome.aborts ∧
    DecodeOutcome.aborts ≠ DecodeOutcome.err DecodeError.shortPayload := by
  exact ⟨by decide, rfl, by decide⟩

/-- C4 amended: account data of length at least 8 but under 8 + 64 bytes
fails the decode step with the recoverable DecodeError; data of at least
8 + 64 bytes decodes, extracting token from bytes 8..40 and
token_vault_ac from bytes 40..72; data under 8 bytes aborts instead of
returning an error value. -/
theorem decode_length_behaviour (data : List Nat) :
    (8 ≤ data.length → data.length < 8 + 64 →
       decode_vault_account data = DecodeOutcome.err DecodeError.shortPayload) ∧
    (8 + 64 ≤ data.length →
       decode_vault_account data =
         DecodeOutcome.ok ⟨(data.drop 8).take 32, ((data.drop 8).drop 32).take 32⟩) ∧
    (data.length < 8 → decode_vault_account data = DecodeOutcome.aborts) := by
  unfold decode_vault_account Vault.deserialize
  refine ⟨?_, ?_, ?_⟩
  · intro h8 h72
    have hlt : ¬ 64 ≤ (data.drop 8).length := by
      rw [List.length_drop]
      omega
    rw [if_pos h8, if_neg hlt]
  · intro h72
    have h8 : 8 ≤ data.length := by omega
    have hge : 64 ≤ (data.drop 8).length := by
      rw [List.length_drop]
      omega
    rw [if_pos h8, if_pos hge]
  · intro h8
    rw [if_neg (by omega)]

/-- Witness for C4 amended: 72 bytes of zeros decode successfully; 40
bytes fail with the DecodeError. -/
theorem decode_length_behaviour_witness :
    decode_vault_account (List.replicate 72 0) =
      DecodeOutcome.ok ⟨((List.replicate 72 0).drop 8).take 32,
        (((List.replicate 72 0).drop 8).drop 32).take 32⟩ ∧
    decode_vault_account (List.replicate 40 0) =
      DecodeOutcome.err DecodeError.shortPayload :=
  ⟨(decode_length_behaviour (List.replicate 72 0)).2.1 (by simp),
   (decode_length_behaviour (List.replicate 40 0)).1 (by simp) (by simp)⟩

/-- Counterexample to C2 as stated: a tick whose get_account call fails
with a transport error ends in exitErr (the ? operator propagates it out
of main), so the iteration does not continue to the next tick. -/
theorem per_tick_error_claim_cex :
    tick 30 ⟨Except.error "transport", Except.ok "blockhash", Except.ok "sig"⟩ =
      TickOutcome.exitErr "transport" ∧
    (tick 30 ⟨Except.error "transport", Except.ok "blockhash", Except.ok "sig"⟩).continues
      = false :=
  ⟨rfl, rfl⟩

/-- C2 amended: a tick continues to the sleep and the next iteration
exactly when get_account succeeded, the decode succeeded and the
blockhash fetch succeeded — the submission result never decides it; a
submission error is caught and rendered to the failure line; but a
get_account transport error propagates out of the loop as exitErr, a
decode error propagates as exitErr, and a blockhash fetch error makes the
unwrap abort. -/
theorem tick_error_propagation (duration_days : Nat) (env : TickEnv) :
    ((tick duration_days env).continues = true ↔
      (∃ data v, env.account_result = Except.ok data ∧
         decode_vault_account data = DecodeOutcome.ok v) ∧
      (∃ b, env.blockhash_result = Except.ok b)) ∧
    (∀ e data v b, env.account_result = Except.ok data →
       decode_vault_account data = DecodeOutcome.ok v →
       env.blockhash_result = Except.ok b →
       env.send_result = Except.error e →
       tick duration_days env =
         TickOutcome.next ("Transaction failed. Error: " ++ e) (sleep_millis duration_days)) ∧
    (∀ e, env.account_result = Except.error e →
       tick duration_days env = TickOutcome.exitErr e) ∧
    (∀ data er, env.account_result = Except.ok data →
       decode_vault_account data = DecodeOutcome.err er →
       tick duration_days env = TickOutcome.exitErr "DecodeError") ∧
    (∀ data v e, env.account_result = Except.ok data →
       decode_vault_account data = DecodeOutcome.ok v →
       env.blockhash_result = Except.error e →
       tick duration_days env = TickOutcome.aborts) := by
  obtain ⟨acct, bh, send⟩ := env
  cases acct with
  | error e => simp [tick, TickOutcome.continues]
  | ok data =>
    cases hd : decode_vault_account data with
    | aborts =>
      simp [tick, hd, TickOutcome.continues]
      constructor <;> (intros; subst_vars; simp_all)
    | err er =>
      simp [tick, hd, TickOutcome.continues]
      constructor <;> (intros; subst_vars; simp_all)
    | ok v =>
      cases bh with
      | error e =>
        simp [tick, hd, TickOutcome.continues]
        intros
        subst_vars
        simp_all
      | ok b =>
        cases send with
        | error e =>
          simp [tick, hd, TickOutcome.continues]
          constructor <;> (intros; subst_vars; simp_all)
        | ok sig =>
          simp [tick, hd, TickOutcome.continues]
          intros
          subst_vars
          simp_all

/-- Witness for C2 amended: with a well-formed 72-byte vault account and
a good blockhash, a failed submission is rendered to the failure line and
the tick continues with the full sleep. -/
theorem tick_error_propagation_witness :
    tick 30 ⟨Except.ok (List.replicate 72 0), Except.ok "blockhash", Except.error "boom"⟩ =
      TickOutcome.next ("Transaction failed. Error: " ++ "boom") (sleep_millis 30) :=
  (tick_error_propagation 30
      ⟨Except.ok (List.replicate 72 0), Except.ok "blockhash", Except.error "boom"⟩).2.1
    "boom" (List.replicate 72 0) ⟨List.replicate 32 0, List.replicate 32 0⟩
    "blockhash" rfl (by decide) rfl rfl

/-- C5: once a tick reaches the submission (account fetch, decode and
blockhash fetch all succeeded), every submission outcome — signature or
error — leads to one printed line and the sleep of the full interval,
then the next iteration; the loop does not exit on either outcome. -/
theorem submission_outcome_continues (duration_days : Nat) (env : TickEnv)
    (data : List Nat) (v : VaultRec) (b : String)
    (hacct : env.account_result = Except.ok data)
    (hdec : decode_vault_account data = DecodeOutcome.ok v)
    (hbh : env.blockhash_result = Except.ok b) :
    ∃ line, tick duration_days env = TickOutcome.next line (sleep_millis duration_days) := by
  cases hsend : env.send_result with
  | ok sig =>
    exact ⟨"Transaction sig: " ++ sig, by simp [tick, hacct, hdec, hbh, hsend]⟩
  | error e =>
    exact ⟨"Transaction failed. Error: " ++ e, by simp [tick, hacct, hdec, hbh, hsend]⟩

/-- Witness for C5: a concrete successful tick reaches the sleep. -/
theorem submission_outcome_continues_witness :
    ∃ line,
      tick 30 ⟨Except.ok (List.replicate 72 0), Except.ok "blockhash", Except.ok "sig"⟩ =
        TickOutcome.next line (sleep_millis 30) :=
  submission_outcome_continues 30
    ⟨Except.ok (List.replicate 72 0), Except.ok "blockhash", Except.ok "sig"⟩
    (List.replicate 72 0) ⟨List.replicate 32 0, List.replicate 32 0⟩
    "blockhash" rfl (by decide) rfl
